import Mathlib

/-
  Verification development for the Vulkan GPU device core
  (VulkanGpuDevice.cpp, VulkanSwapchainImage.hpp).

  The C++ sources are shallowly embedded: driver handles become natural
  number identifiers, the driver state (which fences are signaled) is
  threaded explicitly, fallible operations return Except, and the member
  state of VulkanGpuDevice becomes an explicit record that each operation
  transforms.
-/

namespace Usagi

/-- Result codes returned by the Vulkan driver, restricted to the codes the
device core inspects. -/
inductive VkResult
  | eSuccess
  | eNotReady
  | eErrorDeviceLost
deriving DecidableEq

/-- Identifier of a fence created from the logical device. -/
abbrev FenceId := Nat

/-- Identifier of a command buffer recorded by the external recording layer. -/
abbrev CommandListId := Nat

/-- Identifier of a binary semaphore. -/
abbrev SemaphoreId := Nat

/-- Resources that can be stored in a BatchResourceList: the C++ side
upcasts command lists and semaphores to shared pointers of
VulkanBatchResource; membership in the list models holding such a strong
reference. -/
inductive VulkanBatchResource
  | commandList (id : CommandListId)
  | semaphore (id : SemaphoreId)
deriving DecidableEq

/-- One record per submission: one fence plus the strong references to every
resource the GPU still needs (VulkanGpuDevice.hpp BatchResourceList). -/
structure BatchResourceList where
  fence : FenceId
  resources : List VulkanBatchResource
deriving DecidableEq

/-- Queue flag bits, with the numeric values of VkQueueFlagBits. -/
def VK_QUEUE_GRAPHICS_BIT : Nat := 1

/-- Compute queue flag bit. -/
def VK_QUEUE_COMPUTE_BIT : Nat := 2

/-- Transfer queue flag bit. -/
def VK_QUEUE_TRANSFER_BIT : Nat := 4

/-- Sparse binding queue flag bit. -/
def VK_QUEUE_SPARSE_BINDING_BIT : Nat := 8

/-- Properties of one queue family as enumerated from the physical device. -/
structure QueueFamilyProperties where
  queueFlags : Nat
  queueCount : Nat
deriving DecidableEq

/-- Modelled from the spec: utility matchAllFlags tests that every required
flag bit is present in the value, i.e. the value is a superset of the
required flags; the utility header (Usagi/Utility/Flag.hpp) is outside the
provided sources. -/
def matchAllFlags (value required : Nat) : Bool :=
  value &&& required == required

/-- Physical device types, as in VkPhysicalDeviceType. -/
inductive PhysicalDeviceType
  | eOther
  | eIntegratedGpu
  | eDiscreteGpu
  | eVirtualGpu
  | eCpu
deriving DecidableEq

/-- Static properties of an enumerated physical device. -/
structure PhysicalDevice where
  deviceType : PhysicalDeviceType
  deviceID : Nat
deriving DecidableEq

/-- A queue handle obtained from the logical device, identified by its
family index and queue index as passed to vkGetDeviceQueue. -/
structure VkQueue where
  familyIndex : Nat
  queueIndex : Nat
deriving DecidableEq

/-- Memory property flags of a pool (vk::MemoryPropertyFlagBits). -/
structure MemoryProperties where
  hostVisible : Bool
  hostCoherent : Bool
  deviceLocal : Bool
deriving DecidableEq

/-- Buffer usage flags of the dynamic buffer pool
(vk::BufferUsageFlagBits). -/
structure BufferUsageFlags where
  vertexBuffer : Bool
  indexBuffer : Bool
  uniformBuffer : Bool
deriving DecidableEq

/-- Image usage flags of the host image pool (vk::ImageUsageFlagBits). -/
structure ImageUsageFlags where
  sampled : Bool
deriving DecidableEq

/-- Construction parameters of the BitmapBufferPool instantiated by
createMemoryPools: the pool size, the memory property class, the buffer
usage mask, and the block size handed to the BitmapMemoryAllocator. -/
structure BitmapBufferPool where
  totalSize : Nat
  memoryProperties : MemoryProperties
  usage : BufferUsageFlags
  allocatorBlockSize : Nat
deriving DecidableEq

/-- Construction parameters of the BitmapImagePool instantiated by
createMemoryPools. -/
structure BitmapImagePool where
  totalSize : Nat
  memoryProperties : MemoryProperties
  usage : ImageUsageFlags
  allocatorBlockSize : Nat
deriving DecidableEq

/-- The member state of VulkanGpuDevice that the verified operations read
and write. Fence identifiers are allocated from the counter nextFence;
liveFences tracks which fence objects currently exist on the logical
device; signaledFences is the driver-side set of fences that have been
signaled by completed GPU work. -/
structure VulkanGpuDevice where
  mPhysicalDevice : Option PhysicalDevice
  mGraphicsQueue : VkQueue
  mGraphicsQueueFamilyIndex : Nat
  mDynamicBufferPool : Option BitmapBufferPool
  mHostImagePool : Option BitmapImagePool
  mBatchResourceLists : List BatchResourceList
  nextFence : FenceId
  liveFences : List FenceId
  signaledFences : List FenceId
deriving DecidableEq

/-- A freshly constructed, not yet initialized device state. -/
def initialDevice : VulkanGpuDevice :=
  { mPhysicalDevice := none
    mGraphicsQueue := { familyIndex := 0, queueIndex := 0 }
    mGraphicsQueueFamilyIndex := 0
    mDynamicBufferPool := none
    mHostImagePool := none
    mBatchResourceLists := []
    nextFence := 0
    liveFences := []
    signaledFences := [] }

/-- Driver model of vkGetFenceStatus: eSuccess when the fence has been
signaled by completed GPU work, eNotReady otherwise. -/
def getFenceStatus (signaled_fences : List FenceId) (fence : FenceId) :
    VkResult :=
  if fence ∈ signaled_fences then VkResult.eSuccess else VkResult.eNotReady

/-- VulkanGpuDevice::selectQueue (VulkanGpuDevice.cpp lines 102-115): scan
the queue family list front to back and return the index of the first
family whose flags match all required flags; throw when no family
matches. -/
def selectQueue (queue_family : List QueueFamilyProperties)
    (queue_flags : Nat) : Except String Nat :=
  match queue_family with
  | [] => Except.error "Could not find a queue family with required flags."
  | qf :: rest =>
    if matchAllFlags qf.queueFlags queue_flags then Except.ok 0
    else
      match selectQueue rest queue_flags with
      | Except.ok i => Except.ok (i + 1)
      | Except.error e => Except.error e

/-- Modelled from the spec: checkQueuePresentationCapacity asserts that the
chosen queue family supports presentation on the target surface; the query
is delegated to an external collaborator
(queueFamilySupportsPresent) and the function body is outside the provided
sources. It fails when the family does not support presentation. -/
def checkQueuePresentationCapacity
    (queueFamilySupportsPresent : Nat → Bool)
    (queue_family_index : Nat) : Except String Unit :=
  if queueFamilySupportsPresent queue_family_index then Except.ok ()
  else Except.error "The selected queue family does not support presentation."

/-- Driver model of vkGetDeviceQueue: the queue at (family index, queue
index) of the logical device. -/
def getQueue (family_index queue_index : Nat) : VkQueue :=
  { familyIndex := family_index, queueIndex := queue_index }

/-- VulkanGpuDevice::createDeviceAndQueues (VulkanGpuDevice.cpp lines
228-276), restricted to the queue selection it performs: pick the first
queue family matching graphics and transfer, check it can present, then
store queue 0 of that family and the family index in the device members. -/
def createDeviceAndQueues (d : VulkanGpuDevice)
    (queue_families : List QueueFamilyProperties)
    (queueFamilySupportsPresent : Nat → Bool) :
    Except String VulkanGpuDevice :=
  match selectQueue queue_families
      (VK_QUEUE_GRAPHICS_BIT ||| VK_QUEUE_TRANSFER_BIT) with
  | Except.error e => Except.error e
  | Except.ok graphics_queue_index =>
    match checkQueuePresentationCapacity queueFamilySupportsPresent
        graphics_queue_index with
    | Except.error e => Except.error e
    | Except.ok _ =>
      Except.ok { d with
        mGraphicsQueue := getQueue graphics_queue_index 0
        mGraphicsQueueFamilyIndex := graphics_queue_index }

/-- VulkanGpuDevice::presentQueue (VulkanGpuDevice.cpp lines 472-475):
returns the stored graphics queue. -/
def presentQueue (d : VulkanGpuDevice) : VkQueue :=
  d.mGraphicsQueue

/-- VulkanGpuDevice::graphicsQueueFamily (VulkanGpuDevice.cpp lines
467-470). -/
def graphicsQueueFamily (d : VulkanGpuDevice) : Nat :=
  d.mGraphicsQueueFamilyIndex

/-- The selection loop of VulkanGpuDevice::selectPhysicalDevice
(VulkanGpuDevice.cpp lines 203-220): mPhysicalDevice starts empty; the
first enumerated device is always taken; afterwards any discrete GPU
overwrites the current choice. -/
def selectPhysicalDeviceLoop (acc : Option PhysicalDevice) :
    List PhysicalDevice → Option PhysicalDevice
  | [] => acc
  | dev :: rest =>
    match acc with
    | none => selectPhysicalDeviceLoop (some dev) rest
    | some _ =>
      if dev.deviceType = PhysicalDeviceType.eDiscreteGpu then
        selectPhysicalDeviceLoop (some dev) rest
      else
        selectPhysicalDeviceLoop acc rest

/-- VulkanGpuDevice::selectPhysicalDevice (VulkanGpuDevice.cpp lines
198-226): run the selection loop over the enumerated devices and throw
when no device was found. -/
def selectPhysicalDevice (physical_devices : List PhysicalDevice) :
    Except String PhysicalDevice :=
  match selectPhysicalDeviceLoop none physical_devices with
  | none => Except.error "No available GPU supporting Vulkan."
  | some dev => Except.ok dev

/-- VulkanGpuDevice::createMemoryPools (VulkanGpuDevice.cpp lines 278-311):
instantiate the dynamic buffer pool (128 MiB written as 1024*1024*128,
host-visible and host-coherent, vertex + index + uniform usage, 32 KiB
allocator blocks) and the host image pool (same size and properties,
sampled usage, same block size). -/
def createMemoryPools (d : VulkanGpuDevice) : VulkanGpuDevice :=
  { d with
    mDynamicBufferPool := some
      { totalSize := 1024 * 1024 * 128
        memoryProperties :=
          { hostVisible := true, hostCoherent := true, deviceLocal := false }
        usage :=
          { vertexBuffer := true, indexBuffer := true, uniformBuffer := true }
        allocatorBlockSize := 32 * 1024 }
    mHostImagePool := some
      { totalSize := 1024 * 1024 * 128
        memoryProperties :=
          { hostVisible := true, hostCoherent := true, deviceLocal := false }
        usage := { sampled := true }
        allocatorBlockSize := 32 * 1024 } }

/-- The BatchResourceList built inside VulkanGpuDevice::submitGraphicsJobs
(VulkanGpuDevice.cpp lines 421-444): the freshly created fence plus, via
cast_append, the command lists, the wait semaphores, and the signal
semaphores, in that order. -/
def submittedBatch (d : VulkanGpuDevice) (jobs : List CommandListId)
    (wait_semaphores signal_semaphores : List SemaphoreId) :
    BatchResourceList :=
  { fence := d.nextFence
    resources :=
      jobs.map VulkanBatchResource.commandList
        ++ wait_semaphores.map VulkanBatchResource.semaphore
        ++ signal_semaphores.map VulkanBatchResource.semaphore }

/-- VulkanGpuDevice::submitGraphicsJobs (VulkanGpuDevice.cpp lines
395-449). A fresh fence is created unsignaled; the batch resource list is
built; the batch is posted to the graphics queue, whose driver-side result
is the submit_result parameter. On success the batch list is appended to
mBatchResourceLists. On driver failure the vulkan-hpp wrapper throws: the
exception propagates out of submitGraphicsJobs and the unique handle held
by the local BatchResourceList destroys the fence during unwinding, so the
fence is no longer live and no batch is retained. -/
def submitGraphicsJobs (d : VulkanGpuDevice) (jobs : List CommandListId)
    (wait_semaphores : List SemaphoreId) (wait_stages : List Nat)
    (signal_semaphores : List SemaphoreId) (submit_result : VkResult) :
    Except String Unit × VulkanGpuDevice :=
  let fence := d.nextFence
  let d1 : VulkanGpuDevice :=
    { d with nextFence := d.nextFence + 1
             liveFences := d.liveFences ++ [fence] }
  let batch := submittedBatch d jobs wait_semaphores signal_semaphores
  match submit_result with
  | VkResult.eSuccess =>
    (Except.ok (),
      { d1 with mBatchResourceLists := d1.mBatchResourceLists ++ [batch] })
  | _ =>
    (Except.error "Queue submit failed.",
      { d1 with liveFences := d1.liveFences.erase fence })

/-- The loop of VulkanGpuDevice::reclaimResources (VulkanGpuDevice.cpp
lines 451-460): walk the outstanding batch list once; query the fence
status of each batch; erase the batch when the driver reports eSuccess,
otherwise keep it and advance. The second component records the fences
queried, in iteration order. -/
def reclaimLoop (signaled_fences : List FenceId) :
    List BatchResourceList → List BatchResourceList × List FenceId
  | [] => ([], [])
  | b :: rest =>
    let out := reclaimLoop signaled_fences rest
    if getFenceStatus signaled_fences b.fence = VkResult.eSuccess then
      (out.1, b.fence :: out.2)
    else
      (b :: out.1, b.fence :: out.2)

/-- VulkanGpuDevice::reclaimResources: replace the outstanding batch list
by the result of the single reclaim pass. -/
def reclaimResources (d : VulkanGpuDevice) : VulkanGpuDevice :=
  { d with
    mBatchResourceLists :=
      (reclaimLoop d.signaledFences d.mBatchResourceLists).1 }

/-- Driver events that can interleave with device use after a submission:
a reclaim pass, the driver signaling some fence on GPU completion, or
another submission. -/
inductive DeviceStep : VulkanGpuDevice → VulkanGpuDevice → Prop
  | reclaim (d : VulkanGpuDevice) : DeviceStep d (reclaimResources d)
  | signal (d : VulkanGpuDevice) (f : FenceId) :
      DeviceStep d { d with signaledFences := f :: d.signaledFences }
  | submit (d : VulkanGpuDevice) (jobs : List CommandListId)
      (ws : List SemaphoreId) (sts : List Nat) (ss : List SemaphoreId)
      (r : VkResult) :
      DeviceStep d (submitGraphicsJobs d jobs ws sts ss r).2

/-- Reflexive-transitive closure of DeviceStep: any finite interleaving of
reclaim passes, fence signals and further submissions. -/
inductive DeviceSteps : VulkanGpuDevice → VulkanGpuDevice → Prop
  | refl (d : VulkanGpuDevice) : DeviceSteps d d
  | tail {d e f : VulkanGpuDevice} :
      DeviceSteps d e → DeviceStep e f → DeviceSteps d f

/-- Severity flag set of a driver debug message
(vk::DebugUtilsMessageSeverityFlagsEXT). -/
structure SeverityFlags where
  verbose : Bool
  informational : Bool
  warning : Bool
  fatal : Bool
deriving DecidableEq

/-- Logger levels of the engine logging facility (spdlog levels used by the
callback). -/
inductive LogLevel
  | debug
  | info
  | warn
  | err
deriving DecidableEq

/-- One object attached to a debug message
(vk::DebugUtilsObjectNameInfoEXT). -/
structure VulkanObjectInfo where
  objectHandle : Nat
  objectType : Nat
  pObjectName : Option String
deriving DecidableEq

/-- One command buffer label attached to a debug message
(vk::DebugUtilsLabelEXT); the four color components are modelled as
integers. -/
structure DebugLabel where
  pLabelName : String
  color0 : Int
  color1 : Int
  color2 : Int
  color3 : Int
deriving DecidableEq

/-- The callback data of one driver debug message
(vk::DebugUtilsMessengerCallbackDataEXT). -/
structure DebugCallbackData where
  pMessageIdName : Option String
  messageIdNumber : Int
  pMessage : String
  pObjects : List VulkanObjectInfo
  pCmdBufLabels : List DebugLabel
deriving DecidableEq

/-- One line emitted by the debug callback, as a structured event rather
than a formatted string: the main message line, a per-object line, the
label count line, or a per-label line. -/
inductive LogEvent
  | message (level : LogLevel) (message_type : Nat) (idName : String)
      (idNumber : Int) (text : String)
  | object (level : LogLevel) (index : Nat) (handle : Nat)
      (objectType : Nat) (name : String)
  | labelCount (count : Nat)
  | label (level : LogLevel) (index : Nat) (name : String)
      (c0 c1 c2 c3 : Int)
deriving DecidableEq

/-- The severity-to-level mapping at the head of
VulkanGpuDevice::debugMessengerCallback (VulkanGpuDevice.cpp lines
47-58). -/
def severityLevel (s : SeverityFlags) : LogLevel :=
  if s.verbose then LogLevel.debug
  else if s.informational then LogLevel.info
  else if s.warning then LogLevel.warn
  else if s.fatal then LogLevel.err
  else LogLevel.info

/-- The object loop of the callback (VulkanGpuDevice.cpp lines 71-79): one
line per attached object, carrying the running index. -/
def objectLogLines (level : LogLevel) :
    Nat → List VulkanObjectInfo → List LogEvent
  | _, [] => []
  | i, o :: rest =>
    LogEvent.object level i o.objectHandle o.objectType
        (o.pObjectName.getD "")
      :: objectLogLines level (i + 1) rest

/-- The label loop of the callback (VulkanGpuDevice.cpp lines 85-95): one
line per command buffer label, carrying the running index. -/
def labelLogLines (level : LogLevel) :
    Nat → List DebugLabel → List LogEvent
  | _, [] => []
  | i, l :: rest =>
    LogEvent.label level i l.pLabelName l.color0 l.color1 l.color2 l.color3
      :: labelLogLines level (i + 1) rest

/-- VulkanGpuDevice::debugMessengerCallback (VulkanGpuDevice.cpp lines
42-100): translate the severity to a level, emit the message line, emit
one line per attached object when any are present, and when command
buffer labels are present emit first a label count line (logged at info
level) and then one line per label. The callback returns VK_FALSE, i.e.
it never asks the driver to abort. -/
def debugMessengerCallback (message_severity : SeverityFlags)
    (message_type : Nat) (callback_data : DebugCallbackData) :
    List LogEvent × Bool :=
  let level := severityLevel message_severity
  let msgLine := LogEvent.message level message_type
    (callback_data.pMessageIdName.getD "<Unknown>")
    callback_data.messageIdNumber callback_data.pMessage
  let objLines :=
    if callback_data.pObjects.length > 0 then
      objectLogLines level 0 callback_data.pObjects
    else []
  let lblLines :=
    if callback_data.pCmdBufLabels.length > 0 then
      LogEvent.labelCount callback_data.pCmdBufLabels.length
        :: labelLogLines level 0 callback_data.pCmdBufLabels
    else []
  (msgLine :: (objLines ++ lblLines), false)

/-- The state of a VulkanSwapchainImage (VulkanSwapchainImage.hpp): format,
size, and the image handle obtained from the presentation engine. -/
structure VulkanSwapchainImage where
  format : Nat
  imageSize : Nat × Nat
  mImage : Nat
deriving DecidableEq

/-- VulkanSwapchainImage::upload (VulkanSwapchainImage.hpp lines 23-26):
unconditionally throws a runtime error; the image state is untouched. -/
def VulkanSwapchainImage.upload (img : VulkanSwapchainImage)
    (data : List Nat) (data_size : Nat) :
    Except String Unit × VulkanSwapchainImage :=
  (Except.error "Operation not supported.", img)

/-- VulkanSwapchainImage::uploadRegion (VulkanSwapchainImage.hpp lines
28-35): unconditionally throws a runtime error; the image state is
untouched. -/
def VulkanSwapchainImage.uploadRegion (img : VulkanSwapchainImage)
    (buf_data : List Nat) (buf_size : Nat) (tex_offset : Int × Int)
    (tex_size : Nat × Nat) : Except String Unit × VulkanSwapchainImage :=
  (Except.error "Operation not supported.", img)

/-- Phases of VulkanGpuDevice destruction. In C++ the destructor body runs
first and the member objects (pools, logical device, debug messenger,
instance, outstanding batch lists) are destroyed only afterwards. -/
inductive TeardownPhase
  | waitIdleCall
  | memberTeardown
deriving DecidableEq

/-- The destructor of VulkanGpuDevice (VulkanGpuDevice.cpp lines 322-327):
its body performs the waitIdle call on the logical device; resource
teardown of the members follows after the body. -/
def destructorPhases : List TeardownPhase :=
  [TeardownPhase.waitIdleCall, TeardownPhase.memberTeardown]

/-- Modelled from the spec: vkDeviceWaitIdle blocks until all outstanding
submissions complete, so every outstanding batch fence is signaled when it
returns; the driver-side semantics are external to the repository
sources. -/
def deviceWaitIdle (d : VulkanGpuDevice) : VulkanGpuDevice :=
  { d with
    signaledFences :=
      d.signaledFences ++ d.mBatchResourceLists.map (fun b => b.fence) }

/-- Claim-side formalization for C4, following the words of the spec: the
last discrete GPU in enumeration order when one exists, the first
enumerated device otherwise, failure on empty enumeration. -/
def selectPhysicalDeviceSpec :
    List PhysicalDevice → Except String PhysicalDevice
  | [] => Except.error "No available GPU supporting Vulkan."
  | dev :: rest =>
    Except.ok
      (((dev :: rest).filter
          (fun x => x.deviceType = PhysicalDeviceType.eDiscreteGpu)).getLastD
        dev)

/-- The queue selection performed during createDeviceAndQueues, projected
to its result index: selectQueue over graphics and transfer followed by
the presentation check. -/
def selectGraphicsQueueFamily (queue_families : List QueueFamilyProperties)
    (queueFamilySupportsPresent : Nat → Bool) : Except String Nat :=
  match selectQueue queue_families
      (VK_QUEUE_GRAPHICS_BIT ||| VK_QUEUE_TRANSFER_BIT) with
  | Except.error e => Except.error e
  | Except.ok i =>
    match checkQueuePresentationCapacity queueFamilySupportsPresent i with
    | Except.error e => Except.error e
    | Except.ok _ => Except.ok i

/-- Claim-side predicate for C5: family i exists, its flags are a superset
of graphics and transfer, and it supports presentation. -/
def queueQualifies (queue_families : List QueueFamilyProperties)
    (queueFamilySupportsPresent : Nat → Bool) (i : Nat) : Bool :=
  match queue_families[i]? with
  | some qf =>
    matchAllFlags qf.queueFlags
        (VK_QUEUE_GRAPHICS_BIT ||| VK_QUEUE_TRANSFER_BIT)
      && queueFamilySupportsPresent i
  | none => false

/-- Modelled from the spec: the recognized options of core construction and
their defaults; the configuration surface itself is absent from the
sources, which hard-code the corresponding values. -/
structure CoreConstructionOptions where
  dynamic_buffer_pool_bytes : Nat
  host_image_pool_bytes : Nat
  allocator_block_bytes : Nat
deriving DecidableEq

/-- Modelled from the spec: the documented defaults, 128 MiB for both pools
and 32 KiB allocator blocks. -/
def defaultCoreConstructionOptions : CoreConstructionOptions :=
  { dynamic_buffer_pool_bytes := 128 * 1024 * 1024
    host_image_pool_bytes := 128 * 1024 * 1024
    allocator_block_bytes := 32 * 1024 }

/-
  Helper lemmas shared by the claim theorems.
-/

/-- The reclaim pass keeps exactly the batches whose fence the driver does
not report signaled, in their original order. -/
theorem reclaimLoop_fst (s : List FenceId) :
    ∀ l : List BatchResourceList,
      (reclaimLoop s l).1 = l.filter (fun b => decide (b.fence ∉ s))
  | [] => rfl
  | b :: rest => by
    by_cases h : b.fence ∈ s
    · simp [reclaimLoop, getFenceStatus, h, reclaimLoop_fst s rest]
    · simp [reclaimLoop, getFenceStatus, h, reclaimLoop_fst s rest]

/-- The reclaim pass queries the fence of every batch exactly once, in
submission order. -/
theorem reclaimLoop_snd (s : List FenceId) :
    ∀ l : List BatchResourceList,
      (reclaimLoop s l).2 = l.map (fun b => b.fence)
  | [] => rfl
  | b :: rest => by
    by_cases h : b.fence ∈ s
    · simp [reclaimLoop, getFenceStatus, h, reclaimLoop_snd s rest]
    · simp [reclaimLoop, getFenceStatus, h, reclaimLoop_snd s rest]

/-- Reclaiming does not change the driver-side set of signaled fences. -/
theorem reclaimResources_signaledFences (d : VulkanGpuDevice) :
    (reclaimResources d).signaledFences = d.signaledFences := rfl

/-- A batch whose fence is not signaled survives a reclaim pass. -/
theorem mem_reclaimResources {d : VulkanGpuDevice} {b : BatchResourceList}
    (hb : b ∈ d.mBatchResourceLists) (hf : b.fence ∉ d.signaledFences) :
    b ∈ (reclaimResources d).mBatchResourceLists := by
  show b ∈ (reclaimLoop d.signaledFences d.mBatchResourceLists).1
  rw [reclaimLoop_fst]
  exact List.mem_filter.mpr ⟨hb, by simpa using hf⟩

/-- Submission does not change the driver-side set of signaled fences,
whatever the driver result of the submit call. -/
theorem submit_signaledFences (d : VulkanGpuDevice)
    (jobs : List CommandListId) (ws : List SemaphoreId) (sts : List Nat)
    (ss : List SemaphoreId) (r : VkResult) :
    (submitGraphicsJobs d jobs ws sts ss r).2.signaledFences =
      d.signaledFences := by
  cases r <;> rfl

/-- Existing batches survive a submission, whatever the driver result. -/
theorem submit_mem_batches {d : VulkanGpuDevice} {b : BatchResourceList}
    (jobs : List CommandListId) (ws : List SemaphoreId) (sts : List Nat)
    (ss : List SemaphoreId) (r : VkResult)
    (hb : b ∈ d.mBatchResourceLists) :
    b ∈ (submitGraphicsJobs d jobs ws sts ss r).2.mBatchResourceLists := by
  cases r
  · exact List.mem_append_left _ hb
  · exact hb
  · exact hb

/-- Along one device step the set of signaled fences only grows. -/
theorem step_signaled_mono {d e : VulkanGpuDevice} {f : FenceId}
    (h : DeviceStep d e) (hf : f ∈ d.signaledFences) :
    f ∈ e.signaledFences := by
  cases h with
  | reclaim => exact hf
  | signal g => exact List.mem_cons_of_mem g hf
  | submit jobs ws sts ss r => rw [submit_signaledFences]; exact hf

/-- Along any number of device steps the set of signaled fences only
grows. -/
theorem steps_signaled_mono {d e : VulkanGpuDevice} {f : FenceId}
    (h : DeviceSteps d e) (hf : f ∈ d.signaledFences) :
    f ∈ e.signaledFences := by
  induction h with
  | refl => exact hf
  | tail hsteps hstep ih => exact step_signaled_mono hstep ih

/-- One device step retains every batch whose fence is still unsignaled
after the step. -/
theorem step_batch_retained {d e : VulkanGpuDevice}
    {b : BatchResourceList} (h : DeviceStep d e)
    (hb : b ∈ d.mBatchResourceLists) (hf : b.fence ∉ e.signaledFences) :
    b ∈ e.mBatchResourceLists := by
  cases h with
  | reclaim => exact mem_reclaimResources hb hf
  | signal g => exact hb
  | submit jobs ws sts ss r => exact submit_mem_batches jobs ws sts ss r hb

/-- Any number of device steps retain every batch whose fence is never
signaled: since the signaled set only grows, a fence unsignaled at the end
was unsignaled throughout, so no reclaim pass can have erased the batch. -/
theorem steps_batch_retained {d e : VulkanGpuDevice}
    {b : BatchResourceList} (h : DeviceSteps d e)
    (hb : b ∈ d.mBatchResourceLists) (hf : b.fence ∉ e.signaledFences) :
    b ∈ e.mBatchResourceLists := by
  induction h with
  | refl => exact hb
  | tail hsteps hstep ih =>
    have hmid : b.fence ∉ _ := fun hc => hf (step_signaled_mono hstep hc)
    exact step_batch_retained hstep (ih hmid) hf

/-- Characterization of selectQueue: it succeeds with index i exactly when
family i exists and matches the required flags while every earlier family
does not match them, i.e. it returns the lowest matching family index. -/
theorem selectQueue_ok_iff (flags : Nat) :
    ∀ (l : List QueueFamilyProperties) (i : Nat),
      selectQueue l flags = Except.ok i ↔
        ((∃ qf, l[i]? = some qf ∧
            matchAllFlags qf.queueFlags flags = true) ∧
          ∀ j, j < i → ∀ qf, l[j]? = some qf →
            matchAllFlags qf.queueFlags flags = false)
  | [], i => by simp [selectQueue]
  | qf :: rest, i => by
    by_cases h : matchAllFlags qf.queueFlags flags = true
    · cases i with
      | zero => simp [selectQueue, h]
      | succ n =>
        rw [show selectQueue (qf :: rest) flags = Except.ok 0 from by
          simp [selectQueue, h]]
        constructor
        · intro hc
          exact absurd (Except.ok.inj hc) (Ne.symm (Nat.succ_ne_zero n))
        · rintro ⟨-, hall⟩
          have h0 := hall 0 (Nat.succ_pos n) qf (by simp)
          rw [h] at h0
          exact Bool.noConfusion h0
    · rw [show selectQueue (qf :: rest) flags =
          (match selectQueue rest flags with
            | Except.ok i0 => Except.ok (i0 + 1)
            | Except.error e => Except.error e) from by
        simp [selectQueue, h]]
      cases hr : selectQueue rest flags with
      | ok i0 =>
        cases i with
        | zero =>
          constructor
          · intro hc
            exact absurd (Except.ok.inj hc) (Nat.succ_ne_zero i0)
          · rintro ⟨⟨qf0, hqf0, hm0⟩, -⟩
            rw [List.getElem?_cons_zero] at hqf0
            cases Option.some.inj hqf0
            exact absurd hm0 h
        | succ n =>
          have ih := selectQueue_ok_iff flags rest n
          constructor
          · intro hc
            have hi0 : i0 = n := Nat.succ_injective (Except.ok.inj hc)
            subst hi0
            obtain ⟨⟨qfi, hqfi, hmi⟩, hall⟩ := ih.mp hr
            refine ⟨⟨qfi, by simpa using hqfi, hmi⟩, ?_⟩
            intro j hj qfj hqfj
            cases j with
            | zero =>
              rw [List.getElem?_cons_zero] at hqfj
              cases Option.some.inj hqfj
              exact eq_false_of_ne_true h
            | succ m =>
              rw [List.getElem?_cons_succ] at hqfj
              exact hall m (Nat.lt_of_succ_lt_succ hj) qfj hqfj
          · rintro ⟨⟨qfi, hqfi, hmi⟩, hall⟩
            have hrest : selectQueue rest flags = Except.ok n := by
              refine ih.mpr ⟨⟨qfi, by simpa using hqfi, hmi⟩, ?_⟩
              intro m hm qfm hqfm
              exact hall (m + 1) (Nat.succ_lt_succ hm) qfm
                (by simpa using hqfm)
            rw [hr] at hrest
            rw [Except.ok.inj hrest]
      | error e =>
        constructor
        · intro hc
          exact Except.noConfusion hc
        · rintro ⟨⟨qfi, hqfi, hmi⟩, hall⟩
          cases i with
          | zero =>
            rw [List.getElem?_cons_zero] at hqfi
            cases Option.some.inj hqfi
            exact absurd hmi h
          | succ n =>
            have ih := selectQueue_ok_iff flags rest n
            have hrest : selectQueue rest flags = Except.ok n := by
              refine ih.mpr ⟨⟨qfi, by simpa using hqfi, hmi⟩, ?_⟩
              intro m hm qfm hqfm
              exact hall (m + 1) (Nat.succ_lt_succ hm) qfm
                (by simpa using hqfm)
            rw [hr] at hrest
            exact Except.noConfusion hrest

/-- Characterization of the physical device selection loop once a device
has been taken: the result is the last discrete GPU among the remaining
devices, or the current choice when none of them is discrete. -/
theorem selectPhysicalDeviceLoop_some (a : PhysicalDevice) :
    ∀ l : List PhysicalDevice,
      selectPhysicalDeviceLoop (some a) l =
        some ((l.filter
          (fun x => x.deviceType = PhysicalDeviceType.eDiscreteGpu)).getLastD
            a)
  | [] => rfl
  | dev :: rest => by
    by_cases h : dev.deviceType = PhysicalDeviceType.eDiscreteGpu
    · have h1 : selectPhysicalDeviceLoop (some a) (dev :: rest) =
          selectPhysicalDeviceLoop (some dev) rest := by
        simp [selectPhysicalDeviceLoop, h]
      have h3 : (dev :: rest).filter
          (fun x => decide
            (x.deviceType = PhysicalDeviceType.eDiscreteGpu)) =
          dev :: rest.filter
            (fun x => decide
              (x.deviceType = PhysicalDeviceType.eDiscreteGpu)) := by
        simp [List.filter_cons, h]
      rw [h1, selectPhysicalDeviceLoop_some dev rest, h3,
        List.getLastD_cons]
    · have h1 : selectPhysicalDeviceLoop (some a) (dev :: rest) =
          selectPhysicalDeviceLoop (some a) rest := by
        simp [selectPhysicalDeviceLoop, h]
      have h3 : (dev :: rest).filter
          (fun x => decide
            (x.deviceType = PhysicalDeviceType.eDiscreteGpu)) =
          rest.filter
            (fun x => decide
              (x.deviceType = PhysicalDeviceType.eDiscreteGpu)) := by
        simp [List.filter_cons, h]
      rw [h1, selectPhysicalDeviceLoop_some a rest, h3]

/-- The object loop emits exactly one line per attached object. -/
theorem objectLogLines_length (level : LogLevel) :
    ∀ (i : Nat) (l : List VulkanObjectInfo),
      (objectLogLines level i l).length = l.length
  | _, [] => rfl
  | i, _ :: rest => by
    simp [objectLogLines, objectLogLines_length level (i + 1) rest]

/-- The label loop emits exactly one line per command buffer label. -/
theorem labelLogLines_length (level : LogLevel) :
    ∀ (i : Nat) (l : List DebugLabel),
      (labelLogLines level i l).length = l.length
  | _, [] => rfl
  | i, _ :: rest => by
    simp [labelLogLines, labelLogLines_length level (i + 1) rest]

/-- Erasing a freshly appended element that did not occur before returns
the original list. -/
theorem erase_fresh_fence (l : List FenceId) (n : FenceId) (h : n ∉ l) :
    (l ++ [n]).erase n = l := by
  rw [List.erase_append_right _ h, List.erase_cons_head, List.append_nil]

/-- Conclusion of claim C1 at given inputs: after a successful submission,
the outstanding list gains exactly the new batch; that batch holds a
strong reference to every command list, wait semaphore and signal
semaphore passed in; its fence is unsignaled and distinct from the fence
of every previously outstanding batch; and under any further interleaving
of reclaim passes, fence signals and submissions, the batch stays in the
outstanding list as long as its fence is unsignaled. -/
def SubmitRetainsBatch (d : VulkanGpuDevice) (jobs : List CommandListId)
    (ws : List SemaphoreId) (sts : List Nat) (ss : List SemaphoreId) :
    Prop :=
  (submitGraphicsJobs d jobs ws sts ss
        VkResult.eSuccess).2.mBatchResourceLists
      = d.mBatchResourceLists ++ [submittedBatch d jobs ws ss] ∧
  (∀ j ∈ jobs, VulkanBatchResource.commandList j ∈
    (submittedBatch d jobs ws ss).resources) ∧
  (∀ s ∈ ws, VulkanBatchResource.semaphore s ∈
    (submittedBatch d jobs ws ss).resources) ∧
  (∀ s ∈ ss, VulkanBatchResource.semaphore s ∈
    (submittedBatch d jobs ws ss).resources) ∧
  (submittedBatch d jobs ws ss).fence ∉
    (submitGraphicsJobs d jobs ws sts ss
      VkResult.eSuccess).2.signaledFences ∧
  (∀ b ∈ d.mBatchResourceLists,
    (submittedBatch d jobs ws ss).fence ≠ b.fence) ∧
  (∀ e, DeviceSteps
      (submitGraphicsJobs d jobs ws sts ss VkResult.eSuccess).2 e →
    (submittedBatch d jobs ws ss).fence ∉ e.signaledFences →
    submittedBatch d jobs ws ss ∈ e.mBatchResourceLists)

/-- C1: after submitGraphicsJobs returns, the newly appended
BatchResourceList holds a strong reference to every command list and
every wait and signal semaphore together with a fresh unsignaled fence,
and each such resource stays retained until that fence signals, however
the caller later drives the device. The hypotheses state that the fence
counter dominates every fence the device has handed out, which holds for
every device state reachable from initialDevice. -/
theorem c1_submit_batch_retention (d : VulkanGpuDevice)
    (jobs : List CommandListId) (ws : List SemaphoreId) (sts : List Nat)
    (ss : List SemaphoreId)
    (hsig : ∀ f ∈ d.signaledFences, f < d.nextFence)
    (hbat : ∀ b ∈ d.mBatchResourceLists, b.fence < d.nextFence) :
    SubmitRetainsBatch d jobs ws sts ss := by
  refine ⟨rfl, ?_, ?_, ?_, ?_, ?_, ?_⟩
  · intro j hj
    exact List.mem_append_left _
      (List.mem_append_left _ (List.mem_map_of_mem _ hj))
  · intro s hs
    exact List.mem_append_left _
      (List.mem_append_right _ (List.mem_map_of_mem _ hs))
  · intro s hs
    exact List.mem_append_right _ (List.mem_map_of_mem _ hs)
  · intro hc
    rw [submit_signaledFences] at hc
    exact absurd (hsig _ hc) (lt_irrefl _)
  · intro b hb he
    have hlt := hbat b hb
    rw [← he] at hlt
    exact absurd hlt (lt_irrefl _)
  · intro e hsteps hnf
    refine steps_batch_retained hsteps ?_ hnf
    show submittedBatch d jobs ws ss ∈
      d.mBatchResourceLists ++ [submittedBatch d jobs ws ss]
    exact List.mem_append_right _ (List.mem_singleton.mpr rfl)

/-- Witness for C1 at a concrete device and concrete resources. -/
theorem c1_submit_batch_retention_witness :
    (∀ f ∈ initialDevice.signaledFences, f < initialDevice.nextFence) ∧
    (∀ b ∈ initialDevice.mBatchResourceLists,
      b.fence < initialDevice.nextFence) ∧
    SubmitRetainsBatch initialDevice [10] [20] [0] [30] :=
  ⟨by decide, by decide,
    c1_submit_batch_retention initialDevice [10] [20] [0] [30]
      (by decide) (by decide)⟩

/-- C2: when the driver reports failure on the queue submit inside
submitGraphicsJobs, the call returns the fatal error, the freshly created
fence is destroyed during unwinding so the live fence set is unchanged,
and the outstanding batch list is left unchanged. The hypothesis on
liveFences states that the fence counter dominates every live fence. -/
theorem c2_submit_failure_unwinds (d : VulkanGpuDevice)
    (jobs : List CommandListId) (ws : List SemaphoreId) (sts : List Nat)
    (ss : List SemaphoreId) (r : VkResult)
    (hr : r ≠ VkResult.eSuccess)
    (hlive : ∀ f ∈ d.liveFences, f < d.nextFence) :
    (submitGraphicsJobs d jobs ws sts ss r).1 =
      Except.error "Queue submit failed." ∧
    (submitGraphicsJobs d jobs ws sts ss r).2.mBatchResourceLists =
      d.mBatchResourceLists ∧
    (submitGraphicsJobs d jobs ws sts ss r).2.liveFences =
      d.liveFences := by
  have hnm : d.nextFence ∉ d.liveFences := fun hc =>
    absurd (hlive _ hc) (lt_irrefl _)
  cases r with
  | eSuccess => exact absurd rfl hr
  | eNotReady =>
    exact ⟨rfl, rfl, erase_fresh_fence d.liveFences d.nextFence hnm⟩
  | eErrorDeviceLost =>
    exact ⟨rfl, rfl, erase_fresh_fence d.liveFences d.nextFence hnm⟩

/-- Witness for C2 at a concrete device with a failing driver result. -/
theorem c2_submit_failure_unwinds_witness :
    VkResult.eErrorDeviceLost ≠ VkResult.eSuccess ∧
    (∀ f ∈ initialDevice.liveFences, f < initialDevice.nextFence) ∧
    ((submitGraphicsJobs initialDevice [10] [20] [0] [30]
        VkResult.eErrorDeviceLost).1 =
      Except.error "Queue submit failed." ∧
    (submitGraphicsJobs initialDevice [10] [20] [0] [30]
        VkResult.eErrorDeviceLost).2.mBatchResourceLists =
      initialDevice.mBatchResourceLists ∧
    (submitGraphicsJobs initialDevice [10] [20] [0] [30]
        VkResult.eErrorDeviceLost).2.liveFences =
      initialDevice.liveFences) :=
  ⟨by decide, by decide,
    c2_submit_failure_unwinds initialDevice [10] [20] [0] [30]
      VkResult.eErrorDeviceLost (by decide) (by decide)⟩

/-- C3: reclaimResources makes exactly one pass over the outstanding batch
list, querying every fence exactly once in submission order, keeps exactly
the batches whose fence the driver does not report signaled (in their
original order), does not touch the driver-side fence state, and on a
device with no outstanding submissions any number of repeated calls is a
no-op. -/
theorem c3_reclaim_single_pass (s : List FenceId)
    (l : List BatchResourceList) (d : VulkanGpuDevice) (n : Nat)
    (h : d.mBatchResourceLists = []) :
    (reclaimLoop s l).1 = l.filter (fun b => decide (b.fence ∉ s)) ∧
    (reclaimLoop s l).2 = l.map (fun b => b.fence) ∧
    (reclaimResources d).signaledFences = d.signaledFences ∧
    reclaimResources^[n] d = d := by
  refine ⟨reclaimLoop_fst s l, reclaimLoop_snd s l, rfl, ?_⟩
  have hfix : reclaimResources d = d := by
    have h1 : reclaimResources d =
        { d with mBatchResourceLists := [] } := by
      simp [reclaimResources, h, reclaimLoop]
    rw [h1, ← h]
  exact Function.iterate_fixed hfix n

/-- A concrete outstanding batch list used by the C3 witness. -/
def c3Batches : List BatchResourceList :=
  [{ fence := 0, resources := [] },
   { fence := 1, resources := [VulkanBatchResource.semaphore 5] },
   { fence := 2, resources := [] }]

/-- Witness for C3 at a concrete signaled set, batch list and empty
device. -/
theorem c3_reclaim_single_pass_witness :
    initialDevice.mBatchResourceLists = [] ∧
    ((reclaimLoop [0, 2] c3Batches).1 =
        c3Batches.filter (fun b => decide (b.fence ∉ [0, 2])) ∧
      (reclaimLoop [0, 2] c3Batches).2 =
        c3Batches.map (fun b => b.fence) ∧
      (reclaimResources initialDevice).signaledFences =
        initialDevice.signaledFences ∧
      reclaimResources^[5] initialDevice = initialDevice) :=
  ⟨rfl, c3_reclaim_single_pass [0, 2] c3Batches initialDevice 5 rfl⟩

/-- C4: selectPhysicalDevice agrees everywhere with the specified
selection: the last discrete GPU in enumeration order when one exists, the
first enumerated device when none is discrete, and failure on an empty
enumeration. -/
theorem c4_select_physical_device (physical_devices : List PhysicalDevice) :
    selectPhysicalDevice physical_devices =
      selectPhysicalDeviceSpec physical_devices := by
  cases physical_devices with
  | nil => rfl
  | cons dev rest =>
    have h1 : selectPhysicalDeviceLoop none (dev :: rest) =
        selectPhysicalDeviceLoop (some dev) rest := by
      simp [selectPhysicalDeviceLoop]
    have hgl : ((dev :: rest).filter
        (fun x => decide
          (x.deviceType = PhysicalDeviceType.eDiscreteGpu))).getLastD dev
        = (rest.filter
          (fun x => decide
            (x.deviceType = PhysicalDeviceType.eDiscreteGpu))).getLastD
          dev := by
      by_cases h : dev.deviceType = PhysicalDeviceType.eDiscreteGpu
      · have h3 : (dev :: rest).filter
            (fun x => decide
              (x.deviceType = PhysicalDeviceType.eDiscreteGpu)) =
            dev :: rest.filter
              (fun x => decide
                (x.deviceType = PhysicalDeviceType.eDiscreteGpu)) := by
          simp [List.filter_cons, h]
        rw [h3, List.getLastD_cons]
      · have h3 : (dev :: rest).filter
            (fun x => decide
              (x.deviceType = PhysicalDeviceType.eDiscreteGpu)) =
            rest.filter
              (fun x => decide
                (x.deviceType = PhysicalDeviceType.eDiscreteGpu)) := by
          simp [List.filter_cons, h]
        rw [h3]
    simp only [selectPhysicalDevice, selectPhysicalDeviceSpec]
    rw [h1, selectPhysicalDeviceLoop_some dev rest, hgl]

/-- C5 counterexample data: two queue families, both matching graphics and
transfer, where only family 1 supports presentation. -/
def c5Families : List QueueFamilyProperties :=
  [{ queueFlags := VK_QUEUE_GRAPHICS_BIT ||| VK_QUEUE_TRANSFER_BIT,
     queueCount := 1 },
   { queueFlags := VK_QUEUE_GRAPHICS_BIT ||| VK_QUEUE_TRANSFER_BIT,
     queueCount := 1 }]

/-- C5 counterexample presentation table: only family 1 can present. -/
def c5Present (i : Nat) : Bool := i == 1

/-- C5 counterexample: family 1 qualifies in the sense of the claim (flags
superset plus presentation) and no earlier family does, so the claim
demands the selector return index 1; the code instead locks onto family 0
by flags alone and then fails its presentation check. -/
theorem c5_queue_selection_counterexample :
    queueQualifies c5Families c5Present 0 = false ∧
    queueQualifies c5Families c5Present 1 = true ∧
    selectGraphicsQueueFamily c5Families c5Present =
      Except.error
        "The selected queue family does not support presentation." ∧
    selectGraphicsQueueFamily c5Families c5Present ≠ Except.ok 1 := by
  refine ⟨rfl, rfl, rfl, ?_⟩
  intro hc
  exact Except.noConfusion hc

/-- C5 amended: the queue selection of createDeviceAndQueues returns index
i exactly when i is the lowest family index whose flags are a superset of
graphics and transfer AND that same family supports presentation; when
the lowest flag-matching family cannot present, or no family matches the
flags, it fails, even if a later family would qualify. -/
theorem c5_queue_selection_amended
    (queue_families : List QueueFamilyProperties)
    (queueFamilySupportsPresent : Nat → Bool) (i : Nat) :
    selectGraphicsQueueFamily queue_families queueFamilySupportsPresent =
        Except.ok i ↔
      ((∃ qf, queue_families[i]? = some qf ∧
          matchAllFlags qf.queueFlags
            (VK_QUEUE_GRAPHICS_BIT ||| VK_QUEUE_TRANSFER_BIT) = true) ∧
        (∀ j, j < i → ∀ qf, queue_families[j]? = some qf →
          matchAllFlags qf.queueFlags
            (VK_QUEUE_GRAPHICS_BIT ||| VK_QUEUE_TRANSFER_BIT) = false) ∧
        queueFamilySupportsPresent i = true) := by
  cases hr : selectQueue queue_families
      (VK_QUEUE_GRAPHICS_BIT ||| VK_QUEUE_TRANSFER_BIT) with
  | error e =>
    have key : selectGraphicsQueueFamily queue_families
        queueFamilySupportsPresent = Except.error e := by
      unfold selectGraphicsQueueFamily
      simp only [hr]
    rw [key]
    constructor
    · intro hc
      exact Except.noConfusion hc
    · rintro ⟨hex, hall, -⟩
      have h2 := (selectQueue_ok_iff
        (VK_QUEUE_GRAPHICS_BIT ||| VK_QUEUE_TRANSFER_BIT)
        queue_families i).mpr ⟨hex, hall⟩
      rw [hr] at h2
      exact Except.noConfusion h2
  | ok i0 =>
    by_cases hp : queueFamilySupportsPresent i0 = true
    · have hck : checkQueuePresentationCapacity
          queueFamilySupportsPresent i0 = Except.ok () := by
        unfold checkQueuePresentationCapacity
        rw [if_pos hp]
      have key : selectGraphicsQueueFamily queue_families
          queueFamilySupportsPresent = Except.ok i0 := by
        unfold selectGraphicsQueueFamily
        simp only [hr, hck]
      rw [key]
      constructor
      · intro hc
        cases Except.ok.inj hc
        obtain ⟨hex, hall⟩ := (selectQueue_ok_iff
          (VK_QUEUE_GRAPHICS_BIT ||| VK_QUEUE_TRANSFER_BIT)
          queue_families i).mp hr
        exact ⟨hex, hall, hp⟩
      · rintro ⟨hex, hall, -⟩
        have h2 := (selectQueue_ok_iff
          (VK_QUEUE_GRAPHICS_BIT ||| VK_QUEUE_TRANSFER_BIT)
          queue_families i).mpr ⟨hex, hall⟩
        rw [hr] at h2
        rw [Except.ok.inj h2]
    · have hck : checkQueuePresentationCapacity
          queueFamilySupportsPresent i0 = Except.error
            "The selected queue family does not support presentation." := by
        unfold checkQueuePresentationCapacity
        rw [if_neg hp]
      have key : selectGraphicsQueueFamily queue_families
          queueFamilySupportsPresent = Except.error
            "The selected queue family does not support presentation." := by
        unfold selectGraphicsQueueFamily
        simp only [hr, hck]
      rw [key]
      constructor
      · intro hc
        exact Except.noConfusion hc
      · rintro ⟨hex, hall, hpres⟩
        have h2 := (selectQueue_ok_iff
          (VK_QUEUE_GRAPHICS_BIT ||| VK_QUEUE_TRANSFER_BIT)
          queue_families i).mpr ⟨hex, hall⟩
        rw [hr] at h2
        have hi : i0 = i := Except.ok.inj h2
        subst hi
        exact absurd hpres hp

/-- C6 counterexample severity: a plain warning message. -/
def c6Severity : SeverityFlags :=
  { verbose := false, informational := false, warning := true,
    fatal := false }

/-- C6 counterexample data: no attached objects, one command buffer
label. -/
def c6Data : DebugCallbackData :=
  { pMessageIdName := some "VUID-Example", messageIdNumber := 7,
    pMessage := "validation message",
    pObjects := [],
    pCmdBufLabels :=
      [{ pLabelName := "pass", color0 := 0, color1 := 0, color2 := 0,
         color3 := 0 }] }

/-- C6 counterexample: with one command buffer label attached, the
callback emits three lines (message, label count header, label), not the
two lines (one for the message plus one per label) the claim predicts. -/
theorem c6_debug_callback_counterexample :
    (debugMessengerCallback c6Severity 2 c6Data).1.length ≠
      1 + c6Data.pObjects.length + c6Data.pCmdBufLabels.length := by
  decide

/-- C6 amended: the callback maps the severity to a logger level and emits
exactly one structured line for the message, plus exactly one line per
attached object, plus (when at least one command buffer label is
attached) one label-count header line and exactly one line per label, and
always returns the do-not-abort value false. -/
theorem c6_debug_callback_amended (message_severity : SeverityFlags)
    (message_type : Nat) (callback_data : DebugCallbackData) :
    (debugMessengerCallback message_severity message_type
        callback_data).2 = false ∧
    (debugMessengerCallback message_severity message_type
        callback_data).1.length =
      1 + callback_data.pObjects.length +
        (if 0 < callback_data.pCmdBufLabels.length then
          callback_data.pCmdBufLabels.length + 1 else 0) ∧
    (debugMessengerCallback message_severity message_type
        callback_data).1.head? =
      some (LogEvent.message (severityLevel message_severity) message_type
        (callback_data.pMessageIdName.getD "<Unknown>")
        callback_data.messageIdNumber callback_data.pMessage) := by
  refine ⟨rfl, ?_, rfl⟩
  by_cases ho : callback_data.pObjects.length > 0 <;>
    by_cases hl : callback_data.pCmdBufLabels.length > 0
  · simp [debugMessengerCallback, ho, hl, objectLogLines_length,
      labelLogLines_length]
    omega
  · have hl0 : callback_data.pCmdBufLabels.length = 0 :=
      Nat.eq_zero_of_not_pos hl
    simp [debugMessengerCallback, ho, hl, hl0, objectLogLines_length]
    omega
  · have ho0 : callback_data.pObjects.length = 0 :=
      Nat.eq_zero_of_not_pos ho
    simp [debugMessengerCallback, ho, hl, ho0, labelLogLines_length]
    omega
  · have ho0 : callback_data.pObjects.length = 0 :=
      Nat.eq_zero_of_not_pos ho
    have hl0 : callback_data.pCmdBufLabels.length = 0 :=
      Nat.eq_zero_of_not_pos hl
    simp [debugMessengerCallback, ho, hl, ho0, hl0]

/-- C7: createMemoryPools instantiates exactly the dynamic buffer pool
(128 MiB, host-visible and host-coherent, vertex + index + uniform usage)
and the host image pool (128 MiB, host-visible and host-coherent, sampled
usage), both with 32 KiB allocator blocks, and these sizes equal the
spec-documented defaults of dynamic_buffer_pool_bytes,
host_image_pool_bytes and allocator_block_bytes. -/
theorem c7_memory_pool_configuration (d : VulkanGpuDevice) :
    (createMemoryPools d).mDynamicBufferPool = some
      { totalSize := defaultCoreConstructionOptions.dynamic_buffer_pool_bytes
        memoryProperties :=
          { hostVisible := true, hostCoherent := true, deviceLocal := false }
        usage :=
          { vertexBuffer := true, indexBuffer := true,
            uniformBuffer := true }
        allocatorBlockSize :=
          defaultCoreConstructionOptions.allocator_block_bytes } ∧
    (createMemoryPools d).mHostImagePool = some
      { totalSize := defaultCoreConstructionOptions.host_image_pool_bytes
        memoryProperties :=
          { hostVisible := true, hostCoherent := true, deviceLocal := false }
        usage := { sampled := true }
        allocatorBlockSize :=
          defaultCoreConstructionOptions.allocator_block_bytes } ∧
    defaultCoreConstructionOptions.dynamic_buffer_pool_bytes =
      128 * 1024 * 1024 ∧
    defaultCoreConstructionOptions.host_image_pool_bytes =
      128 * 1024 * 1024 ∧
    defaultCoreConstructionOptions.allocator_block_bytes = 32 * 1024 :=
  ⟨rfl, rfl, rfl, rfl, rfl⟩

/-- C8: on a swapchain-owned image, upload and uploadRegion fail
synchronously with the unsupported-operation error for every data
pointer, size, offset and extent, and leave the image state untouched. -/
theorem c8_swapchain_upload_unsupported (img : VulkanSwapchainImage)
    (data : List Nat) (data_size : Nat) (buf_data : List Nat)
    (buf_size : Nat) (tex_offset : Int × Int) (tex_size : Nat × Nat) :
    img.upload data data_size =
      (Except.error "Operation not supported.", img) ∧
    img.uploadRegion buf_data buf_size tex_offset tex_size =
      (Except.error "Operation not supported.", img) :=
  ⟨rfl, rfl⟩

/-- C9: the destructor phase list places the waitIdle call strictly before
member teardown, teardown sees the same outstanding batches, and once
deviceWaitIdle has returned the driver reports every outstanding batch
fence as signaled. -/
theorem c9_wait_idle_before_teardown (d : VulkanGpuDevice) :
    destructorPhases.indexOf TeardownPhase.waitIdleCall <
      destructorPhases.indexOf TeardownPhase.memberTeardown ∧
    (deviceWaitIdle d).mBatchResourceLists = d.mBatchResourceLists ∧
    ∀ b ∈ (deviceWaitIdle d).mBatchResourceLists,
      getFenceStatus (deviceWaitIdle d).signaledFences b.fence =
        VkResult.eSuccess := by
  refine ⟨by decide, rfl, ?_⟩
  intro b hb
  have hmem : b.fence ∈ (deviceWaitIdle d).signaledFences :=
    List.mem_append_right _ (List.mem_map_of_mem _ hb)
  simp [getFenceStatus, hmem]

/-- C10: whenever createDeviceAndQueues succeeds, presentQueue returns the
stored graphics queue, which is queue 0 of the family reported by
graphicsQueueFamily. -/
theorem c10_present_queue_is_graphics_queue (d : VulkanGpuDevice)
    (queue_families : List QueueFamilyProperties)
    (queueFamilySupportsPresent : Nat → Bool) (d2 : VulkanGpuDevice)
    (h : createDeviceAndQueues d queue_families
      queueFamilySupportsPresent = Except.ok d2) :
    presentQueue d2 = d2.mGraphicsQueue ∧
    presentQueue d2 = getQueue (graphicsQueueFamily d2) 0 := by
  refine ⟨rfl, ?_⟩
  unfold createDeviceAndQueues at h
  cases hr : selectQueue queue_families
      (VK_QUEUE_GRAPHICS_BIT ||| VK_QUEUE_TRANSFER_BIT) with
  | error e =>
    simp only [hr] at h
    exact Except.noConfusion h
  | ok i =>
    simp only [hr] at h
    by_cases hp : queueFamilySupportsPresent i = true
    · have hck : checkQueuePresentationCapacity
          queueFamilySupportsPresent i = Except.ok () := by
        unfold checkQueuePresentationCapacity
        rw [if_pos hp]
      simp only [hck] at h
      cases Except.ok.inj h
      rfl
    · have hck : checkQueuePresentationCapacity
          queueFamilySupportsPresent i = Except.error
            "The selected queue family does not support presentation." := by
        unfold checkQueuePresentationCapacity
        rw [if_neg hp]
      simp only [hck] at h
      exact Except.noConfusion h

/-- A one-family queue table for the C10 witness. -/
def c10Families : List QueueFamilyProperties :=
  [{ queueFlags := VK_QUEUE_GRAPHICS_BIT ||| VK_QUEUE_TRANSFER_BIT,
     queueCount := 1 }]

/-- The device state produced by the C10 witness initialization. -/
def c10Device : VulkanGpuDevice :=
  { initialDevice with
    mGraphicsQueue := { familyIndex := 0, queueIndex := 0 }
    mGraphicsQueueFamilyIndex := 0 }

/-- Witness for C10 at a concrete queue family table where initialization
succeeds. -/
theorem c10_present_queue_is_graphics_queue_witness :
    createDeviceAndQueues initialDevice c10Families (fun _ => true) =
        Except.ok c10Device ∧
    (presentQueue c10Device = c10Device.mGraphicsQueue ∧
      presentQueue c10Device = getQueue (graphicsQueueFamily c10Device) 0) :=
  ⟨rfl,
    c10_present_queue_is_graphics_queue initialDevice c10Families
      (fun _ => true) c10Device rfl⟩

end Usagi
